import Mathlib

/-!
Shallow embedding of `src/wayvr/src/subsystem/fitbit.rs` (Fitbit heart-rate
polling subsystem).

Modelling conventions:
- `Instant` and `Duration` are both modelled as `Nat` seconds.  All calls to
  `Instant::now()` inside one `update` tick are modelled by a single `now`
  parameter (time is frozen within a tick; the code only compares and adds
  instants, so this is faithful up to clock monotonicity).
- `self.pending : Option<Receiver<FetchResult>>` is modelled as
  `pending : Option Unit`; the nonblocking `try_recv` outcome on the pending
  receiver is an explicit input (`RecvOutcome`) to `update`, consumed only
  when `pending` is `some`.
- Spawning the worker thread is modelled by `update` returning, besides the
  new state, an `Option DispatchArgs`: `some args` iff a fetch worker was
  dispatched, where `args` is the exact snapshot of arguments the source
  passes to `fetch_latest_rate`.
- Network I/O performed by the worker (`curl` GET of the heart-rate URL and
  the token-refresh POST) is modelled by an oracle `NetOracle` giving the
  outcome of the n-th GET and n-th POST of one fetch cycle; `fetch_latest_rate`
  additionally returns the trace of network calls it performed.
- JSON bodies are modelled post-deserialization: the oracle yields either a
  transport error, or an HTTP status together with `Except String T` for the
  serde decoding outcome of the body.
- `GeneralConfig` (from the external `wlx_common` crate) is modelled by the
  five optional string fields this subsystem reads.
-/

/-- Backoff schedule `FITBIT_POLL_INTERVALS` in seconds, `[1s, 3s, 10s, 30s]`. -/
def FITBIT_POLL_INTERVALS : List Nat := [1, 3, 10, 30]

/-- Source `struct TokenUpdate` (fitbit.rs lines 182-186). -/
structure TokenUpdate where
  access_token : String
  expires_in : Nat
  refresh_token : Option String
deriving DecidableEq, Repr

/-- Source `enum FetchResult` (fitbit.rs lines 174-180). -/
inductive FetchResult where
  | Ok (rate : Option Nat) (token : Option TokenUpdate)
  | Err (message : String) (status : Nat)
deriving DecidableEq, Repr

/-- The five `fitbit_*` fields of `wlx_common::config::GeneralConfig` that
this subsystem reads (all `Option<String>`). -/
structure GeneralConfig where
  fitbit_access_token : Option String
  fitbit_user_id : Option String
  fitbit_refresh_token : Option String
  fitbit_client_id : Option String
  fitbit_client_secret : Option String
deriving DecidableEq, Repr

/-- Source `struct FitbitState` (fitbit.rs lines 15-24).  `pending` holds `some ()`
iff a fetch receiver is present. -/
structure FitbitState where
  last_rate : Option Nat
  next_poll_at : Nat
  next_interval_index : Nat
  last_watch_visible : Bool
  pending : Option Unit
  access_token : Option String
  access_token_expires_at : Option Nat
  refresh_token : Option String
deriving DecidableEq, Repr

/-- Source `FitbitState::default` (fitbit.rs lines 26-39); `Instant::now()` at
construction time is the `now` parameter. -/
def FitbitState.mkDefault (now : Nat) : FitbitState :=
  { last_rate := none
    next_poll_at := now
    next_interval_index := 0
    last_watch_visible := false
    pending := none
    access_token := none
    access_token_expires_at := none
    refresh_token := none }

/-- Outcome of `receiver.try_recv()` on the pending receiver. -/
inductive RecvOutcome where
  | ok (result : FetchResult)
  | disconnected
  | empty
deriving DecidableEq, Repr

/-- Source `FitbitState::apply_token_update` (fitbit.rs lines 165-171); the
`Instant::now()` it reads is the `now` parameter. -/
def FitbitState.apply_token_update (s : FitbitState) (u : TokenUpdate) (now : Nat) :
    FitbitState :=
  { s with
    access_token := some u.access_token
    access_token_expires_at := some (now + u.expires_in)
    refresh_token := match u.refresh_token with
      | some refresh_token => some refresh_token
      | none => s.refresh_token }

/-- The drain block at the head of `FitbitState::update` (fitbit.rs lines
43-71): if a receiver is pending, non-blockingly check it; on a received
result clear `pending` and fold the result into the state; on disconnection
clear `pending` silently; on `Empty` do nothing. -/
def drainPending (s : FitbitState) (recv : RecvOutcome) (now : Nat) : FitbitState :=
  match s.pending with
  | none => s
  | some _ =>
    match recv with
    | RecvOutcome.ok result =>
      let s := { s with pending := none }
      match result with
      | FetchResult.Ok rate token =>
        let s := { s with last_rate := rate }
        match token with
        | some t => s.apply_token_update t now
        | none => s
      | FetchResult.Err _message status =>
        if status == 429 then
          { s with
            next_poll_at := now + 60
            next_interval_index := FITBIT_POLL_INTERVALS.length - 1 }
        else s
    | RecvOutcome.disconnected => { s with pending := none }
    | RecvOutcome.empty => s

/-- Clamped schedule read `FITBIT_POLL_INTERVALS.get(i).copied().unwrap_or_else(|| *FITBIT_POLL_INTERVALS.last().unwrap())`
(fitbit.rs lines 136-139). -/
def intervalFor (i : Nat) : Nat :=
  (FITBIT_POLL_INTERVALS[i]?).getD ((FITBIT_POLL_INTERVALS.getLast?).getD 0)

/-- Cursor advance `(self.next_interval_index + 1).min(FITBIT_POLL_INTERVALS.len() - 1)`
(fitbit.rs lines 141-142). -/
def advanceIndex (i : Nat) : Nat :=
  min (i + 1) (FITBIT_POLL_INTERVALS.length - 1)

/-- Snapshot of the arguments handed to the spawned fetch worker
(fitbit.rs lines 146-155). -/
structure DispatchArgs where
  url : String
  config_access_token : Option String
  access_token : Option String
  token_expiry : Option Nat
  refresh_token : Option String
  client_id : Option String
  client_secret : Option String
deriving DecidableEq, Repr

/-- Source `FitbitState::update` (fitbit.rs lines 42-159).  Returns the new state and
`some args` iff a fetch worker was dispatched with those arguments. -/
def FitbitState.update (s : FitbitState) (config : GeneralConfig)
    (watch_visible : Bool) (now : Nat) (recv : RecvOutcome) :
    FitbitState × Option DispatchArgs :=
  let s := drainPending s recv now
  if !watch_visible then
    ({ s with last_watch_visible := false }, none)
  else
    let s :=
      if watch_visible && !s.last_watch_visible then
        { s with next_poll_at := now, next_interval_index := 0, last_watch_visible := true }
      else s
    let config_access_token :=
      config.fitbit_access_token.filter (fun token => !token.trim.isEmpty)
    let s :=
      if s.access_token.isNone then { s with access_token := config_access_token } else s
    if now < s.next_poll_at then
      (s, none)
    else
      let user_id := (config.fitbit_user_id.filter (fun id => !id.trim.isEmpty)).getD "-"
      let refresh_token :=
        (config.fitbit_refresh_token.filter (fun v => !v.trim.isEmpty)).orElse
          (fun _ => s.refresh_token)
      let client_id := config.fitbit_client_id.filter (fun v => !v.trim.isEmpty)
      let client_secret := config.fitbit_client_secret.filter (fun v => !v.trim.isEmpty)
      let url := "https://api.fitbit.com/1/user/" ++ user_id ++
        "/activities/heart/date/today/1d/1min.json"
      if s.pending.isSome then
        (s, none)
      else
        let access_token := s.access_token
        let token_expiry := s.access_token_expires_at
        let interval := intervalFor s.next_interval_index
        ({ s with
            next_poll_at := now + interval
            next_interval_index := advanceIndex s.next_interval_index
            pending := some () },
         some { url, config_access_token, access_token, token_expiry,
                refresh_token, client_id, client_secret })

/-- Source `struct FitbitDatasetEntry` (fitbit.rs lines 378-381); only `value` is
deserialized. -/
structure FitbitDatasetEntry where
  value : Nat
deriving DecidableEq, Repr

/-- Source `struct FitbitIntraday` (fitbit.rs lines 372-376). -/
structure FitbitIntraday where
  dataset : List FitbitDatasetEntry
deriving DecidableEq, Repr

/-- Source `struct FitbitHeartResponse` (fitbit.rs lines 366-370); `intraday` renames
the `activities-heart-intraday` JSON field. -/
structure FitbitHeartResponse where
  intraday : FitbitIntraday
deriving DecidableEq, Repr

/-- Source `struct FitbitTokenResponse` (fitbit.rs lines 383-389). -/
structure FitbitTokenResponse where
  access_token : String
  expires_in : Nat
  refresh_token : Option String
deriving DecidableEq, Repr

/-- Source `struct FitbitRequestError` (fitbit.rs lines 391-395). -/
structure FitbitRequestError where
  status : Nat
  message : String
deriving DecidableEq, Repr

/-- The `Display` impl for `FitbitRequestError` (fitbit.rs lines 406-410):
`"{message} (status {status})"`; this is what `err.to_string()` yields. -/
def fitbitErrToString (e : FitbitRequestError) : String :=
  e.message ++ " (status " ++ toString e.status ++ ")"

/-- Outcome of one `curl` GET of the heart-rate URL, as seen after
`curl_with_status` and serde decoding: either a transport/process failure
(`curl` error, modelled status 0), or an HTTP status with the decoding
outcome of the body. -/
inductive HttpOutcome where
  | transportErr (message : String)
  | response (status : Nat) (body : Except String FitbitHeartResponse)

/-- Outcome of one `curl` POST to the token endpoint, analogous to
`HttpOutcome`. -/
inductive TokenHttpOutcome where
  | transportErr (message : String)
  | response (status : Nat) (body : Except String FitbitTokenResponse)

/-- Source `request_heart_rate` (fitbit.rs lines 277-301), with the outcome of the network call
outcome supplied by the oracle value `o`: transport errors map to status 0,
`status >= 400` is an error, otherwise the value of the last dataset entry
of the decoded body (or `none` for an empty dataset) is returned. -/
def request_heart_rate (o : HttpOutcome) : Except FitbitRequestError (Option Nat) :=
  match o with
  | HttpOutcome.transportErr message => Except.error ⟨0, message⟩
  | HttpOutcome.response status body =>
    if 400 ≤ status then
      Except.error ⟨status, "Fitbit heart rate request failed"⟩
    else
      match body with
      | Except.error e => Except.error ⟨0, e⟩
      | Except.ok response =>
        Except.ok ((response.intraday.dataset.getLast?).map FitbitDatasetEntry.value)

/-- Source `refresh_access_token` (fitbit.rs lines 303-337): fails fast (without any
network call) when the refresh token, client id or client secret is missing;
otherwise performs the POST, whose outcome `o` the oracle supplies.  Errors
are `anyhow` errors, modelled by their message string.  The Bool records
whether the POST was actually performed (instrumentation for the network
trace; the source performs the POST exactly when all three credentials are
present). -/
def refresh_access_token (refresh_token client_id client_secret : Option String)
    (o : TokenHttpOutcome) : Except String TokenUpdate × Bool :=
  match refresh_token with
  | none => (Except.error "Fitbit refresh token is missing", false)
  | some _ =>
    match client_id with
    | none => (Except.error "Fitbit client ID is missing", false)
    | some _ =>
      match client_secret with
      | none => (Except.error "Fitbit client secret is missing", false)
      | some _ =>
        match o with
        | TokenHttpOutcome.transportErr message => (Except.error message, true)
        | TokenHttpOutcome.response status body =>
          if 400 ≤ status then
            (Except.error ("Fitbit refresh failed (" ++ toString status ++ ")"), true)
          else
            match body with
            | Except.error e => (Except.error e, true)
            | Except.ok resp =>
              (Except.ok ⟨resp.access_token, resp.expires_in, resp.refresh_token⟩, true)

/-- Oracle for the network calls of one fetch cycle: `gets n` is the outcome
of the n-th heart-rate GET (the initial GET is n = 0, the post-refresh retry
is n = 1), `posts n` the outcome of the n-th token POST. -/
structure NetOracle where
  gets : Nat → HttpOutcome
  posts : Nat → TokenHttpOutcome

/-- One entry of the network-call trace of a fetch cycle. -/
inductive NetEvent where
  | get (token : String)
  | post
deriving DecidableEq, Repr

/-- The part of `fetch_latest_rate` from line 230 on: the `let Some(token)`
check, the authenticated GET, and the reactive 401 refresh-and-retry.
`token_update` carries a `TokenUpdate` obtained by a proactive refresh;
`postIdx` is the index of the next token POST for the oracle; `trace` is the
trace accumulated so far. -/
def fetchWithToken (url : String) (token : Option String)
    (token_update : Option TokenUpdate)
    (refresh_token client_id client_secret : Option String)
    (net : NetOracle) (postIdx : Nat) (trace : List NetEvent) :
    FetchResult × List NetEvent :=
  match token with
  | none => (FetchResult.Err "Fitbit access token is missing" 0, trace)
  | some token =>
    let trace := trace ++ [NetEvent.get token]
    match request_heart_rate (net.gets 0) with
    | Except.ok rate => (FetchResult.Ok rate token_update, trace)
    | Except.error err =>
      if err.status == 401 then
        match refresh_access_token refresh_token client_id client_secret
            (net.posts postIdx) with
        | (Except.ok upd, _) =>
          let retryToken := upd.access_token
          let trace := trace ++ [NetEvent.post, NetEvent.get retryToken]
          match request_heart_rate (net.gets 1) with
          | Except.ok rate => (FetchResult.Ok rate (some upd), trace)
          | Except.error err2 =>
            (FetchResult.Err (fitbitErrToString err2) err2.status, trace)
        | (Except.error e, didPost) =>
          (FetchResult.Err e 0, trace ++ if didPost then [NetEvent.post] else [])
      else
        (FetchResult.Err (fitbitErrToString err) err.status, trace)

/-- Source `fetch_latest_rate` (fitbit.rs lines 188-275), with network outcomes from
the oracle `net`; additionally returns the network-call trace.  NOTE: on a
proactive-refresh failure the source reads `err.status` off an
`anyhow::Error`, which has no such field (the source as given does not
compile there); the closest consistent reading — the status-less `anyhow`
error, as the reactive path maps it at line 263 — is status 0, used here. -/
def fetch_latest_rate (url : String)
    (config_access_token cached_access_token : Option String)
    (cached_expiry : Option Nat)
    (refresh_token client_id client_secret : Option String)
    (now : Nat) (net : NetOracle) : FetchResult × List NetEvent :=
  let token := cached_access_token.orElse (fun _ => config_access_token)
  let expired := match cached_expiry with
    | some expiry => expiry ≤ now
    | none => false
  let can_refresh :=
    refresh_token.isSome && client_id.isSome && client_secret.isSome
  if expired && can_refresh then
    match refresh_access_token refresh_token client_id client_secret (net.posts 0) with
    | (Except.ok upd, _) =>
      fetchWithToken url (some upd.access_token) (some upd)
        refresh_token client_id client_secret net 1 [NetEvent.post]
    | (Except.error e, didPost) =>
      (FetchResult.Err e 0, if didPost then [NetEvent.post] else [])
  else if token.isNone && can_refresh then
    match refresh_access_token refresh_token client_id client_secret (net.posts 0) with
    | (Except.ok upd, _) =>
      fetchWithToken url (some upd.access_token) (some upd)
        refresh_token client_id client_secret net 1 [NetEvent.post]
    | (Except.error e, didPost) =>
      (FetchResult.Err e 0, if didPost then [NetEvent.post] else [])
  else
    fetchWithToken url token none refresh_token client_id client_secret net 0 []

/-! Concrete fixtures used by witnesses and counterexamples. -/

/-- A configuration with every fitbit field absent. -/
def cfg0 : GeneralConfig := ⟨none, none, none, none, none⟩

/-- A state with a fetch in flight (`pending = some ()`) and fresh schedule. -/
def sPend : FitbitState :=
  { last_rate := some 70
    next_poll_at := 4
    next_interval_index := 0
    last_watch_visible := true
    pending := some ()
    access_token := some "tok"
    access_token_expires_at := some 100
    refresh_token := some "ref" }

/-- An idle invisible state (no fetch pending, last seen invisible). -/
def sIdle : FitbitState :=
  { last_rate := some 70
    next_poll_at := 50
    next_interval_index := 2
    last_watch_visible := false
    pending := none
    access_token := some "tok"
    access_token_expires_at := none
    refresh_token := none }

/-- A state with a fetch in flight that was last seen invisible. -/
def sPendInvis : FitbitState :=
  { last_rate := none
    next_poll_at := 90
    next_interval_index := 2
    last_watch_visible := false
    pending := some ()
    access_token := none
    access_token_expires_at := none
    refresh_token := none }

/-- Oracle whose first GET yields HTTP 401 and whose POSTs fail at transport
level. -/
def netC6 : NetOracle :=
  { gets := fun _ => HttpOutcome.response 401 (Except.error "unused")
    posts := fun _ => TokenHttpOutcome.transportErr "x" }

/-- Oracle for the refresh-and-retry cycle: the initial GET yields 401, the
token POST succeeds, and the retried GET fails with HTTP 500. -/
def netRetry : NetOracle :=
  { gets := fun n =>
      if n == 0 then HttpOutcome.response 401 (Except.error "unused")
      else HttpOutcome.response 500 (Except.error "unused")
    posts := fun _ =>
      TokenHttpOutcome.response 200 (Except.ok ⟨"fresh", 3600, some "rot"⟩) }

/-! Helper lemmas shared across the claim proofs. -/

theorem drainPending_last_watch_visible (s : FitbitState) (recv : RecvOutcome) (now : Nat) :
    (drainPending s recv now).last_watch_visible = s.last_watch_visible := by
  rcases s with ⟨lr, npa, nii, lwv, pend, at_, exp, rt⟩
  cases pend <;> cases recv <;>
    simp only [drainPending, FitbitState.apply_token_update] <;>
    first
    | rfl
    | (rename_i result
       cases result <;> simp only []
       · rename_i rate token
         cases token <;> rfl
       · rename_i message status
         split <;> rfl)

theorem drainPending_none (s : FitbitState) (recv : RecvOutcome) (now : Nat)
    (h : s.pending = none) : drainPending s recv now = s := by
  simp [drainPending, h]

theorem intervalFor_eq_getD (i : Nat) :
    intervalFor i = FITBIT_POLL_INTERVALS.getD (min i 3) 0 := by
  match i with
  | 0 => rfl
  | 1 => rfl
  | 2 => rfl
  | 3 => rfl
  | (n + 4) =>
    have h1 : min (n + 4) 3 = 3 := by omega
    rw [h1]
    simp [intervalFor, FITBIT_POLL_INTERVALS]

theorem iterate_advanceIndex (n : Nat) : advanceIndex^[n] 0 = min n 3 := by
  induction n with
  | zero => rfl
  | succ n ih =>
    rw [Function.iterate_succ_apply', ih]
    have hl : FITBIT_POLL_INTERVALS.length - 1 = 3 := rfl
    simp only [advanceIndex, hl]
    omega

/-- C2: the n-th consecutive dispatch since a cursor reset uses interval
`schedule[min(n, 3)]` with `schedule = [1s, 3s, 10s, 30s]`: starting from
cursor 0, each dispatch reads `intervalFor` at the cursor and advances the
cursor with `advanceIndex` (the exact expressions of `FitbitState.update`),
the cursor after n dispatches is `min n 3`, the interval read at any cursor
`i` is `schedule[min(i, 3)]`, a dispatch at cursor `i` moves it to
`min(i+1, 3)`, and the cursor never exceeds the last schedule index. -/
theorem backoff_schedule_correct (n : Nat) :
    advanceIndex^[n] 0 = min n 3
    ∧ intervalFor (advanceIndex^[n] 0) = FITBIT_POLL_INTERVALS.getD (min n 3) 0
    ∧ (∀ i, intervalFor i = FITBIT_POLL_INTERVALS.getD (min i 3) 0
        ∧ advanceIndex i = min (i + 1) 3)
    ∧ advanceIndex^[n] 0 ≤ 3 := by
  have h := iterate_advanceIndex n
  refine ⟨h, ?_, ?_, by omega⟩
  · rw [h, intervalFor_eq_getD]
    have : min (min n 3) 3 = min n 3 := by omega
    rw [this]
  · intro i
    refine ⟨intervalFor_eq_getD i, ?_⟩
    have hl : FITBIT_POLL_INTERVALS.length - 1 = 3 := rfl
    simp only [advanceIndex, hl]

/-- C3: draining a failed fetch outcome: status 429 sets
`next_poll_at = now + 60` and forces the cursor to the last schedule index;
any other failing status leaves `next_poll_at` and `next_interval_index`
untouched; in either case `last_rate` and the token cache
(`access_token`, `access_token_expires_at`, `refresh_token`) are unchanged. -/
theorem drain_failure_spec (s : FitbitState) (now : Nat) (m : String) (st : Nat)
    (h : s.pending = some ()) :
    (st = 429 →
      (drainPending s (RecvOutcome.ok (FetchResult.Err m st)) now).next_poll_at = now + 60
      ∧ (drainPending s (RecvOutcome.ok (FetchResult.Err m st)) now).next_interval_index
        = FITBIT_POLL_INTERVALS.length - 1)
    ∧ (st ≠ 429 →
      (drainPending s (RecvOutcome.ok (FetchResult.Err m st)) now).next_poll_at = s.next_poll_at
      ∧ (drainPending s (RecvOutcome.ok (FetchResult.Err m st)) now).next_interval_index
        = s.next_interval_index)
    ∧ (drainPending s (RecvOutcome.ok (FetchResult.Err m st)) now).last_rate = s.last_rate
    ∧ (drainPending s (RecvOutcome.ok (FetchResult.Err m st)) now).access_token = s.access_token
    ∧ (drainPending s (RecvOutcome.ok (FetchResult.Err m st)) now).access_token_expires_at
      = s.access_token_expires_at
    ∧ (drainPending s (RecvOutcome.ok (FetchResult.Err m st)) now).refresh_token
      = s.refresh_token := by
  rcases s with ⟨lr, npa, nii, lwv, pend, at_, exp, rt⟩
  simp only [FitbitState.pending] at h
  subst h
  by_cases hst : st = 429 <;> simp [drainPending, hst]

/-- Witness for C3 at a concrete state and both statuses. -/
theorem drain_failure_spec_witness :
    (drainPending sPend (RecvOutcome.ok (FetchResult.Err "rl" 429)) 10).next_poll_at = 10 + 60
    ∧ (drainPending sPend (RecvOutcome.ok (FetchResult.Err "oops" 500)) 10).next_poll_at
      = sPend.next_poll_at :=
  ⟨((drain_failure_spec sPend 10 "rl" 429 rfl).1 rfl).1,
   ((drain_failure_spec sPend 10 "oops" 500 rfl).2.1 (by decide)).1⟩

/-- C8: applying a `TokenUpdate` replaces the cached access token, sets the
cached expiry to the application time plus `expires_in`, and replaces the
cached refresh token iff the update carries one (an absent `refresh_token`
leaves the cached one unchanged). -/
theorem apply_token_update_spec (s : FitbitState) (u : TokenUpdate) (now : Nat) :
    (s.apply_token_update u now).access_token = some u.access_token
    ∧ (s.apply_token_update u now).access_token_expires_at = some (now + u.expires_in)
    ∧ (u.refresh_token = none →
        (s.apply_token_update u now).refresh_token = s.refresh_token)
    ∧ (∀ r, u.refresh_token = some r →
        (s.apply_token_update u now).refresh_token = some r) := by
  refine ⟨rfl, rfl, ?_, ?_⟩
  · intro h
    simp [FitbitState.apply_token_update, h]
  · intro r h
    simp [FitbitState.apply_token_update, h]

/-- Witness for C8: a rotation-free update keeps the cached refresh token, a
rotating update replaces it. -/
theorem apply_token_update_spec_witness :
    ((sPend.apply_token_update ⟨"a", 100, none⟩ 5).refresh_token = sPend.refresh_token)
    ∧ ((sPend.apply_token_update ⟨"a", 100, some "r2"⟩ 5).refresh_token = some "r2") :=
  ⟨(apply_token_update_spec sPend ⟨"a", 100, none⟩ 5).2.2.1 rfl,
   (apply_token_update_spec sPend ⟨"a", 100, some "r2"⟩ 5).2.2.2 "r2" rfl⟩

/-- C4 counterexample: with `watch_visible = false` and a pending 429 failure
to drain, `update` DOES mutate the backoff cursor (the drain block runs
before the visibility check), contradicting "never mutates the backoff
cursor while invisible": `sPend` starts at cursor 0 and ends at cursor 3. -/
theorem invisible_429_mutates_cursor :
    (sPend.update cfg0 false 10 (RecvOutcome.ok (FetchResult.Err "rl" 429))).1.next_interval_index
      = 3
    ∧ sPend.next_interval_index = 0
    ∧ (3 : Nat) ≠ 0 := by
  refine ⟨rfl, rfl, by decide⟩

/-- C4 (amended): with `watch_visible = false`, `update` never dispatches a
fetch and, apart from the initial drain of a completed fetch outcome (which
may apply the 429 schedule override), has no other effect: the result is
exactly the drained state with `last_watch_visible` set to false. -/
theorem invisible_update_drain_only (s : FitbitState) (cfg : GeneralConfig)
    (now : Nat) (recv : RecvOutcome) :
    s.update cfg false now recv
      = ({ drainPending s recv now with last_watch_visible := false }, none) := rfl

/-- C5: a visibility transition from false to true resets `next_poll_at` to
`now` and `next_interval_index` to 0, making the next poll immediately
eligible regardless of accumulated backoff: if a fetch is still pending after
the drain the call ends with the schedule reset exactly so; if none is
pending, the immediately eligible poll is dispatched in the same call, from
cursor 0. -/
theorem visible_edge_reset (s : FitbitState) (cfg : GeneralConfig) (now : Nat)
    (recv : RecvOutcome) (h : s.last_watch_visible = false) :
    ((drainPending s recv now).pending ≠ none →
      (s.update cfg true now recv).1.next_poll_at = now
      ∧ (s.update cfg true now recv).1.next_interval_index = 0
      ∧ (s.update cfg true now recv).1.last_watch_visible = true
      ∧ (s.update cfg true now recv).2 = none)
    ∧ ((drainPending s recv now).pending = none →
      (s.update cfg true now recv).2.isSome = true
      ∧ (s.update cfg true now recv).1.next_poll_at = now + intervalFor 0
      ∧ (s.update cfg true now recv).1.next_interval_index = advanceIndex 0) := by
  have hlwv := (drainPending_last_watch_visible s recv now).trans h
  simp only [FitbitState.update]
  generalize hd : drainPending s recv now = d at hlwv ⊢
  rcases d with ⟨lr, npa, nii, lwv, pend, at_, exp, rt⟩
  simp only [FitbitState.last_watch_visible] at hlwv
  subst hlwv
  cases pend <;> cases at_ <;>
    simp [FitbitState.pending, Nat.lt_irrefl]

/-- Witness for C5: both branches at concrete states. -/
theorem visible_edge_reset_witness :
    ((sPendInvis.update cfg0 true 10 RecvOutcome.empty).1.next_poll_at = 10
      ∧ (sPendInvis.update cfg0 true 10 RecvOutcome.empty).1.next_interval_index = 0
      ∧ (sPendInvis.update cfg0 true 10 RecvOutcome.empty).1.last_watch_visible = true
      ∧ (sPendInvis.update cfg0 true 10 RecvOutcome.empty).2 = none)
    ∧ ((sIdle.update cfg0 true 10 RecvOutcome.empty).2.isSome = true
      ∧ (sIdle.update cfg0 true 10 RecvOutcome.empty).1.next_poll_at = 10 + intervalFor 0
      ∧ (sIdle.update cfg0 true 10 RecvOutcome.empty).1.next_interval_index = advanceIndex 0) :=
  ⟨(visible_edge_reset sPendInvis cfg0 10 RecvOutcome.empty rfl).1 (by decide),
   (visible_edge_reset sIdle cfg0 10 RecvOutcome.empty rfl).2 rfl⟩

/-- C1 (single-flight): `update` dispatches a fetch worker only when no
receiver is pending after the drain; the resulting `pending` is `some`
exactly when a worker was dispatched or the drained receiver stayed pending;
a pending receiver is cleared by the drain exactly when `try_recv` yields a
result or disconnection (never on `Empty`); and `pending` becomes `some`
only at dispatch (it stays `none` through the drain when it was `none`). -/
theorem single_flight (s : FitbitState) (cfg : GeneralConfig) (vis : Bool)
    (now : Nat) (recv : RecvOutcome) :
    ((s.update cfg vis now recv).2.isSome = true →
      (drainPending s recv now).pending = none)
    ∧ (s.update cfg vis now recv).1.pending
      = (if (s.update cfg vis now recv).2.isSome then some ()
         else (drainPending s recv now).pending)
    ∧ (s.pending = some () →
      ((drainPending s recv now).pending = none ↔ recv ≠ RecvOutcome.empty))
    ∧ (s.pending = none → (drainPending s recv now).pending = none) := by
  rcases s with ⟨lr, npa, nii, lwv, pend, at_, exp, rt⟩
  refine ⟨?_, ?_, ?_, ?_⟩
  · cases vis
    · simp [FitbitState.update]
    · generalize hd :
        drainPending ⟨lr, npa, nii, lwv, pend, at_, exp, rt⟩ recv now = d
      rcases d with ⟨lr1, npa1, nii1, lwv1, pend1, at1, exp1, rt1⟩
      cases lwv1 <;> cases pend1 <;> cases at1 <;>
        by_cases hn : now < npa1 <;>
        simp [FitbitState.update, hd, FitbitState.pending, hn, Nat.lt_irrefl]
  · cases vis
    · simp [FitbitState.update]
    · generalize hd :
        drainPending ⟨lr, npa, nii, lwv, pend, at_, exp, rt⟩ recv now = d
      rcases d with ⟨lr1, npa1, nii1, lwv1, pend1, at1, exp1, rt1⟩
      cases lwv1 <;> cases pend1 <;> cases at1 <;>
        by_cases hn : now < npa1 <;>
        simp [FitbitState.update, hd, FitbitState.pending, hn, Nat.lt_irrefl]
  · intro h
    simp only [FitbitState.pending] at h
    subst h
    cases recv
    · rename_i result
      rcases result with ⟨rate, token⟩ | ⟨m, st⟩
      · cases token <;>
          simp [drainPending, FitbitState.apply_token_update, FitbitState.pending]
      · by_cases hst : st = 429 <;>
          simp [drainPending, hst, FitbitState.pending]
    · simp [drainPending, FitbitState.pending]
    · simp [drainPending, FitbitState.pending]
  · intro h
    simp only [FitbitState.pending] at h
    subst h
    simp [drainPending]

/-- Witness for C1: a dispatch at an idle state implies no pending receiver
after the drain; a disconnected receiver is cleared; an absent receiver stays
absent. -/
theorem single_flight_witness :
    (drainPending sIdle RecvOutcome.empty 60).pending = none
    ∧ (drainPending sPend RecvOutcome.disconnected 5).pending = none
    ∧ (drainPending sIdle RecvOutcome.empty 5).pending = none :=
  ⟨(single_flight sIdle cfg0 true 60 RecvOutcome.empty).1 rfl,
   ((single_flight sPend cfg0 true 5 RecvOutcome.disconnected).2.2.1 rfl).mpr (by decide),
   (single_flight sIdle cfg0 true 5 RecvOutcome.empty).2.2.2 rfl⟩

/-- C7: when no access token can be resolved (no cached token, no config
token) and refresh is not capable (refresh token, client id or client secret
missing), the fetch cycle fails immediately with the credential-missing
error at status 0 and performs no network call at all (empty trace: no GET,
no token POST). -/
theorem missing_credentials_no_network (url : String)
    (cfgTok cacheTok : Option String) (expiry : Option Nat)
    (rt cid cs : Option String) (now : Nat) (net : NetOracle)
    (h1 : cacheTok = none) (h2 : cfgTok = none)
    (h3 : rt = none ∨ cid = none ∨ cs = none) :
    fetch_latest_rate url cfgTok cacheTok expiry rt cid cs now net
      = (FetchResult.Err "Fitbit access token is missing" 0, []) := by
  subst h1 h2
  have hcr : (rt.isSome && cid.isSome && cs.isSome) = false := by
    rcases h3 with h | h | h <;> subst h <;> simp
  simp [fetch_latest_rate, hcr, fetchWithToken]

/-- Witness for C7 at a concrete input (with an expired cached expiry and a
refresh token present but no client credentials, so no path resolves a
token). -/
theorem missing_credentials_no_network_witness :
    fetch_latest_rate "u" none none (some 0) (some "ref") none none 5 netC6
      = (FetchResult.Err "Fitbit access token is missing" 0, []) :=
  missing_credentials_no_network "u" none none (some 0) (some "ref") none none 5 netC6
    rfl rfl (Or.inr (Or.inl rfl))

/-- C9: a successful response (status < 400) that decodes to an empty
intraday dataset parses to `none` (not an error); in general the parse
yields the `value` of the last dataset entry; and draining an `Ok` outcome
with `rate = none` sets `last_rate` to `none`. -/
theorem empty_dataset_yields_none (status : Nat) (resp : FitbitHeartResponse)
    (h : status < 400) (s : FitbitState) (now : Nat) (tu : Option TokenUpdate)
    (hp : s.pending = some ()) :
    request_heart_rate (HttpOutcome.response status (Except.ok resp))
      = Except.ok ((resp.intraday.dataset.getLast?).map FitbitDatasetEntry.value)
    ∧ (resp.intraday.dataset = [] →
        request_heart_rate (HttpOutcome.response status (Except.ok resp))
          = Except.ok none)
    ∧ (drainPending s (RecvOutcome.ok (FetchResult.Ok none tu)) now).last_rate
      = none := by
  have hnot : ¬ 400 ≤ status := by omega
  refine ⟨?_, ?_, ?_⟩
  · simp [request_heart_rate, hnot]
  · intro he
    simp [request_heart_rate, hnot, he]
  · rcases s with ⟨lr, npa, nii, lwv, pend, at_, exp, rt⟩
    simp only [FitbitState.pending] at hp
    subst hp
    cases tu <;>
      simp [drainPending, FitbitState.apply_token_update, FitbitState.last_rate]

/-- Witness for C9: HTTP 200 with an empty dataset parses to `none`, and
draining `Ok { rate: none }` clears `last_rate` of a state that held 70. -/
theorem empty_dataset_yields_none_witness :
    request_heart_rate (HttpOutcome.response 200 (Except.ok ⟨⟨[]⟩⟩)) = Except.ok none
    ∧ (drainPending sPend (RecvOutcome.ok (FetchResult.Ok none none)) 5).last_rate
      = none :=
  ⟨(empty_dataset_yields_none 200 ⟨⟨[]⟩⟩ (by decide) sPend 5 none rfl).2.1 rfl,
   (empty_dataset_yields_none 200 ⟨⟨[]⟩⟩ (by decide) sPend 5 none rfl).2.2⟩

/-- C6 counterexample: the initial GET fails with HTTP 401 while refresh is
not possible (no refresh token, client id or secret); the claim says the
failure is propagated with its original HTTP status (401), but the code
surfaces the error of the failed refresh attempt with status 0 instead. -/
theorem fetch_401_counterexample :
    request_heart_rate (netC6.gets 0)
      = Except.error ⟨401, "Fitbit heart rate request failed"⟩
    ∧ (fetch_latest_rate "u" none (some "tok") none none none none 0 netC6).1
      = FetchResult.Err "Fitbit refresh token is missing" 0
    ∧ (0 : Nat) ≠ 401 :=
  ⟨rfl, rfl, by decide⟩

/-- C6 (amended): with a cached token and no proactive refresh pending, a
non-401 GET failure is propagated with its original HTTP status after
exactly one GET; a 401 GET failure whose refresh attempt succeeds is
followed by exactly one retried GET (trace: GET, POST, GET) whose outcome is
surfaced as-is — a second failure included, with the status of that failure, and
no further retry; a 401 whose refresh attempt fails (including when refresh
is not possible) is surfaced with status 0 and no retried GET. -/
theorem fetch_retry_spec (url tok0 : String) (cfgTok rt cid cs : Option String)
    (now : Nat) (net : NetOracle) (e0 : FitbitRequestError)
    (h0 : request_heart_rate (net.gets 0) = Except.error e0) :
    (e0.status ≠ 401 →
      fetch_latest_rate url cfgTok (some tok0) none rt cid cs now net
        = (FetchResult.Err (fitbitErrToString e0) e0.status, [NetEvent.get tok0]))
    ∧ (∀ upd, e0.status = 401 →
        refresh_access_token rt cid cs (net.posts 0) = (Except.ok upd, true) →
        fetch_latest_rate url cfgTok (some tok0) none rt cid cs now net
          = ((match request_heart_rate (net.gets 1) with
              | Except.ok rate => FetchResult.Ok rate (some upd)
              | Except.error e2 => FetchResult.Err (fitbitErrToString e2) e2.status),
             [NetEvent.get tok0, NetEvent.post, NetEvent.get upd.access_token]))
    ∧ (∀ em dp, e0.status = 401 →
        refresh_access_token rt cid cs (net.posts 0) = (Except.error em, dp) →
        fetch_latest_rate url cfgTok (some tok0) none rt cid cs now net
          = (FetchResult.Err em 0,
             [NetEvent.get tok0] ++ if dp then [NetEvent.post] else [])) := by
  refine ⟨?_, ?_, ?_⟩
  · intro hne
    have hb : (e0.status == 401) = false := by
      simpa using hne
    simp [fetch_latest_rate, fetchWithToken, h0, hb]
  · intro upd h401 hr
    have hb : (e0.status == 401) = true := by
      simpa using h401
    rcases hg : request_heart_rate (net.gets 1) with rate | e2 <;>
      simp [fetch_latest_rate, fetchWithToken, h0, hb, hr, hg]
  · intro em dp h401 hpost
    have hb : (e0.status == 401) = true := by
      simpa using h401
    cases dp <;> simp [fetch_latest_rate, fetchWithToken, h0, hb, hpost]

/-- Witness for C6 (amended): 401, then a successful refresh, then a 500 on
the retried GET — surfaced with status 500 after exactly one retry. -/
theorem fetch_retry_spec_witness :
    fetch_latest_rate "u" none (some "tok") none (some "r") (some "i") (some "s") 0 netRetry
      = (FetchResult.Err "Fitbit heart rate request failed (status 500)" 500,
         [NetEvent.get "tok", NetEvent.post, NetEvent.get "fresh"]) := by
  have h := (fetch_retry_spec "u" "tok" none (some "r") (some "i") (some "s") 0 netRetry
      ⟨401, "Fitbit heart rate request failed"⟩ rfl).2.1 ⟨"fresh", 3600, some "rot"⟩ rfl rfl
  exact h.trans (by rfl)

/-- C10: a `FetchResult.Err` never carries a token update into the
scheduler: draining any failed fetch leaves the token cache (`access_token`,
`access_token_expires_at`, `refresh_token`) unchanged, and in the cycle
where a reactive 401 refresh succeeds but the retried GET fails, the fetch
returns `Err` (not `Ok`), so the freshly obtained `TokenUpdate` — rotated
refresh token included — is discarded. -/
theorem err_discards_token_update (s : FitbitState) (now : Nat) (m : String)
    (st : Nat) (hp : s.pending = some ())
    (url tok0 m1 : String) (cfgTok rt cid cs : Option String) (net : NetOracle)
    (upd : TokenUpdate) (e2 : FitbitRequestError)
    (h0 : request_heart_rate (net.gets 0) = Except.error ⟨401, m1⟩)
    (hr : refresh_access_token rt cid cs (net.posts 0) = (Except.ok upd, true))
    (h1 : request_heart_rate (net.gets 1) = Except.error e2) :
    ((drainPending s (RecvOutcome.ok (FetchResult.Err m st)) now).access_token
        = s.access_token
      ∧ (drainPending s (RecvOutcome.ok (FetchResult.Err m st)) now).access_token_expires_at
        = s.access_token_expires_at
      ∧ (drainPending s (RecvOutcome.ok (FetchResult.Err m st)) now).refresh_token
        = s.refresh_token)
    ∧ fetch_latest_rate url cfgTok (some tok0) none rt cid cs now net
      = (FetchResult.Err (fitbitErrToString e2) e2.status,
         [NetEvent.get tok0, NetEvent.post, NetEvent.get upd.access_token]) := by
  constructor
  · rcases s with ⟨lr, npa, nii, lwv, pend, at_, exp, rt'⟩
    simp only [FitbitState.pending] at hp
    subst hp
    by_cases hst : st = 429 <;> simp [drainPending, hst]
  · simp [fetch_latest_rate, fetchWithToken, h0, hr, h1]

/-- Witness for C10 at concrete inputs: draining a 500 failure into `sPend`
keeps its token cache, and the retry-failure cycle under `netRetry` returns
`Err` with the rotated refresh token discarded. -/
theorem err_discards_token_update_witness :
    ((drainPending sPend (RecvOutcome.ok (FetchResult.Err "oops" 500)) 5).access_token
        = sPend.access_token
      ∧ (drainPending sPend (RecvOutcome.ok (FetchResult.Err "oops" 500)) 5).access_token_expires_at
        = sPend.access_token_expires_at
      ∧ (drainPending sPend (RecvOutcome.ok (FetchResult.Err "oops" 500)) 5).refresh_token
        = sPend.refresh_token)
    ∧ fetch_latest_rate "u" none (some "tok") none (some "r") (some "i") (some "s") 0 netRetry
      = (FetchResult.Err "Fitbit heart rate request failed (status 500)" 500,
         [NetEvent.get "tok", NetEvent.post, NetEvent.get "fresh"]) := by
  have h := err_discards_token_update sPend 5 "oops" 500 rfl "u" "tok"
      "Fitbit heart rate request failed" none (some "r") (some "i") (some "s") netRetry
      ⟨"fresh", 3600, some "rot"⟩ ⟨500, "Fitbit heart rate request failed"⟩ rfl rfl rfl
  exact ⟨h.1, h.2.trans (by rfl)⟩
